import Mathlib

set_option maxRecDepth 8192

/-!
Verification of the MedAI application (`app.py`).

The development shallowly embeds the two core components:

* `AIMedicalAssistant.start_consultation` — a staged consultation dialog
  over a mutable session (stage counter, current symptom, follow-up index,
  response cache), embedded as a pure step function on a `Session` record.
* `PathologyReportAnalyzer` — the extract → analyze → log pipeline,
  embedded as pure functions over a document model (a list of page texts,
  or an exception) and an oracle standing for the external
  text-generation service.

Python strings are Lean `String`s; Python's `str.lower` is embedded at the
ASCII level (`pyLower`), which is exact for every string the program
manipulates; Python dicts used as caches are association lists; exceptions
from external collaborators are `Except` values threaded explicitly.
-/

namespace MedAI

/-- The external text-generation collaborator: maps a prompt to either the
generated text or the message of the exception it raised. -/
def Oracle : Type := String → Except String String

/-- ASCII lowercasing of one character, as Python's `str.lower` acts on the
ASCII range (the only range exercised by the program's data). -/
def pyLowerChar (c : Char) : Char := Char.toLower c

/-- Embedding of Python `s.lower()`: lowercase every character. -/
def pyLower (s : String) : String := String.mk (s.data.map pyLowerChar)

/-- Embedding of Python `s.strip()`: drop leading and trailing whitespace. -/
def pyStrip (s : String) : String :=
  String.mk (((s.data.dropWhile Char.isWhitespace).reverse.dropWhile
    Char.isWhitespace).reverse)

/-- The `VALID_MEDICAL_TERMS` set from `app.py`, verbatim, as a list.
Note two entries carry uppercase letters and a U+2019 apostrophe, exactly
as in the source. -/
def VALID_MEDICAL_TERMS : List String := [
  "fever", "cough", "headache", "diabetes", "hypertension", "asthma", "flu", "cold",
  "migraine", "pneumonia", "covid-19", "allergy", "infection", "bronchitis",
  "arthritis", "anemia", "cancer", "depression", "anxiety", "stroke",
  "heart attack", "obesity", "hair loss", "nausea", "vomiting", "diarrhea",
  "constipation", "fatigue", "dizziness", "fainting", "shortness of breath",
  "chest pain", "abdominal pain", "joint pain", "muscle pain", "back pain",
  "skin rash", "swelling", "numbness", "weakness", "blurry vision",
  "ear infection", "sinusitis", "gastritis", "ulcer", "food poisoning",
  "kidney disease", "liver disease", "thyroid disorder", "autoimmune disease",
  "seizures", "paralysis", "mental confusion", "loss of appetite",
  "weight loss", "weight gain", "high cholesterol", "sleep apnea", "insomnia",
  "acid reflux", "irritable bowel syndrome", "chronic pain", "dehydration",
  "bleeding", "heat stroke", "meningitis", "tuberculosis", "hepatitis",
  "pancreatitis", "lupus", "multiple sclerosis", "Parkinson’s disease",
  "Alzheimer’s disease", "epilepsy", "blood clot", "varicose veins",
  "immune deficiency", "psoriasis", "eczema", "hives", "sunburn",
  "frostbite", "fracture", "sprain", "tendonitis", "concussion",
  "brain tumor", "leukemia", "lymphoma", "melanoma"]

/-- The stage-0 gate of `start_consultation`:
`user_input.lower() in VALID_MEDICAL_TERMS`. -/
def validSymptom (user_input : String) : Bool :=
  VALID_MEDICAL_TERMS.contains (pyLower user_input)

/-- Lookup in a Python-dict-like association list (most recent entry first). -/
def cacheLookup (cache : List (String × String)) (k : String) : Option String :=
  (cache.find? (fun p => p.1 == k)).map (fun p => p.2)

/-- Result of one call to `generate_ai_response`: the returned string, the
cache after the call, and how many times the external collaborator was
invoked (0 or 1). -/
structure GenOutcome where
  result : String
  cache : List (String × String)
  calls : Nat
deriving DecidableEq, Repr

/-- Embedding of `AIMedicalAssistant.generate_ai_response`: return the cached
response if the prompt is an exact key; otherwise call the collaborator,
trim and cache the result on success, or return `"Error: {e}"` on any
exception (the `try`/`except` makes the function total — no exception
escapes). -/
def generate_ai_response (cache : List (String × String)) (oracle : Oracle)
    (user_input : String) : GenOutcome :=
  match cacheLookup cache user_input with
  | some r => ⟨r, cache, 0⟩
  | none =>
    match oracle user_input with
    | Except.ok t =>
      let r := pyStrip t
      ⟨r, (user_input, r) :: cache, 1⟩
    | Except.error e => ⟨"Error: " ++ e, cache, 1⟩

/-- The fixed prompt built by `AIMedicalAssistant.structured_response`. -/
def structured_query (symptom : String) : String :=
  "Provide a structured response for the symptom: " ++ symptom ++
  ". Include Definition, Causes, Symptoms, Risk Factors, Precautions, and When to Consult a Doctor. " ++
  "Also, suggest which specialist doctor to visit."

/-- The list returned by `AIMedicalAssistant.get_additional_questions`. -/
def additional_questions : List String := [
  "Do you have any other symptoms associated with this?",
  "Have you taken any medication or treatment for this?",
  "Have you experienced this before?",
  "Does it get worse under certain conditions?",
  "Are there any other health issues you have that might be related?"]

/-- The mutable fields of `AIMedicalAssistant` that `start_consultation`
reads or writes (`conversation_history` is never touched by it and is
omitted). -/
structure Session where
  stage : Nat
  current_symptom : Option String
  current_question_index : Nat
  symptom_responses : List (String × String)
deriving DecidableEq, Repr

/-- The state built by `AIMedicalAssistant.__init__`. -/
def initSession : Session := ⟨0, none, 0, []⟩

/-- Python renders `None` in an f-string as the text `"None"`; this mirrors
`f"... {symptom} ..."` applied to an optional value. -/
def symptomText : Option String → String
  | some t => t
  | none => "None"

/-- Embedding of `AIMedicalAssistant.start_consultation`: one dialog step.
Returns the updated session and the reply (`none` models the implicit
Python `None` fall-through when `stage` is outside 0–3, which is
unreachable from `initSession`). -/
def start_consultation (s : Session) (oracle : Oracle) (user_input : String) :
    Session × Option String :=
  if s.stage = 0 then
    if validSymptom user_input = false then
      (s, some "AIMCA: Please enter a valid medical symptom or condition.")
    else
      ({ s with current_symptom := some user_input, stage := 1 },
        some "AIMCA: How long have you had this symptom?")
  else if s.stage = 1 then
    ({ s with stage := 2 }, some "AIMCA: On a scale of 1-10, how severe is it?")
  else if s.stage = 2 then
    if s.current_question_index < additional_questions.length then
      ({ s with current_question_index := s.current_question_index + 1 },
        some ("AIMCA: " ++ additional_questions.getD s.current_question_index ""))
    else
      ({ s with current_question_index := 0, stage := 3 },
        some "AIMCA: Would you like to know precautions and when to see a doctor? (yes/no)")
  else if s.stage = 3 then
    if pyLower user_input = "yes" then
      let g := generate_ai_response s.symptom_responses oracle
        (structured_query (symptomText s.current_symptom))
      ({ s with symptom_responses := g.cache, stage := 0 },
        some ("AIMCA: " ++ g.result))
    else
      ({ s with stage := 0 }, some "AIMCA: Thank you for using AIMCA!")
  else
    (s, none)

/-- Drive the dialog through a list of user inputs, keeping the last reply. -/
def stepMany (oracle : Oracle) : Session × Option String → List String → Session × Option String
  | acc, [] => acc
  | acc, input :: rest => stepMany oracle (start_consultation acc.1 oracle input) rest

/-- States of the global `assistant` reachable by any sequence of
`start_consultation` calls (each possibly under a different behaviour of
the external collaborator). -/
inductive Reachable : Session → Prop where
  | init : Reachable initSession
  | step (s : Session) (oracle : Oracle) (input : String) :
      Reachable s → Reachable (start_consultation s oracle input).1

/-- An oracle whose collaborator always raises. -/
def oracle0 : Oracle := fun _ => Except.error "service unavailable"

/-! ### Pathology report analyzer -/

/-- Character-list test that `p` begins `l` (used to embed Python's `in`). -/
def leadsWith : List Char → List Char → Bool
  | [], _ => true
  | _ :: _, [] => false
  | p :: ps, c :: cs => p == c && leadsWith ps cs

/-- Bool test that `pat` occurs somewhere in `l`. -/
def containsAt (pat : List Char) : List Char → Bool
  | [] => leadsWith pat []
  | c :: cs => leadsWith pat (c :: cs) || containsAt pat cs

/-- Embedding of Python's substring test `pat in s`. -/
def strContains (s pat : String) : Bool := containsAt pat.data s.data

/-- Proposition that `pat` occurs in `s` as a literal substring. -/
def SubStr (pat s : String) : Prop := ∃ u v, s = u ++ pat ++ v

/-- A document handed to `pdfplumber`: either the list of per-page texts
(`""` standing for a page with no extractable text, Python's `None` or
empty string), or the message of the exception raised on opening. -/
def PdfDoc : Type := Except String (List String)

/-- The page-concatenation loop of `extract_text_from_pdf`: pages whose
text is falsy are skipped, the rest are appended each with a trailing
newline. -/
def joinPages (pages : List String) : String :=
  (pages.filter (fun t => t ≠ "")).foldl (fun acc t => acc ++ t ++ "\n") ""

/-- Embedding of `PathologyReportAnalyzer.extract_text_from_pdf`: returns
the method's return value together with the final `self.extracted_text`
field. -/
def extract_text_from_pdf (doc : PdfDoc) : String × String :=
  match doc with
  | Except.error e => ("Error extracting text: " ++ e, "")
  | Except.ok pages =>
    let t := joinPages pages
    (if t = "" then "Error: No readable text found." else t, t)

/-- The head of the fixed analysis prompt of `analyze_report`, up to and
including `"Report:\n"`; the extracted text follows it. -/
def analysisPromptHead : String :=
  "Analyze the following pathology report and provide a structured response including:\n" ++
  "1. Identified abnormalities\n" ++
  "2. Possible risk factors\n" ++
  "3. Recommended next steps\n" ++
  "4. Suggested specialist doctor to consult\n" ++
  "5. At-home remedies or lifestyle changes (if applicable)\n\n" ++
  "Report:\n"

/-- The full prompt `analyze_report` submits for a given extracted text. -/
def analysisPrompt (extractedText : String) : String :=
  analysisPromptHead ++ extractedText

/-- Embedding of `PathologyReportAnalyzer.analyze_report`: the returned
string and the number of collaborator invocations. -/
def analyze_report (extractedText : String) (oracle : Oracle) : String × Nat :=
  if extractedText = "" then ("No text extracted from the PDF.", 0)
  else
    match oracle (analysisPrompt extractedText) with
    | Except.ok t => (pyStrip t, 1)
    | Except.error e => ("Error analyzing report: " ++ e, 1)

/-- The `'='*80` separator written by `log_analysis`. -/
def separatorLine : String := String.mk (List.replicate 80 '=')

/-- One record appended by `log_analysis`: timestamp line, result body,
separator line, each newline-terminated. -/
def log_record (now result : String) : String :=
  now ++ "\n" ++ result ++ "\n" ++ separatorLine ++ "\n"

/-- Observable outcome of `run_analysis`: the returned value (`none` is
Python's `None` from the bare `return`), the number of collaborator
invocations, and the records appended to the pathology log. -/
structure RunOutcome where
  result : Option String
  genCalls : Nat
  log : List String
deriving DecidableEq, Repr

/-- Embedding of `PathologyReportAnalyzer.run_analysis`: halt with a bare
`return` when the extraction return value contains `"Error"`, otherwise
analyze, log, and return the analysis result. -/
def run_analysis (doc : PdfDoc) (oracle : Oracle) (now : String) : RunOutcome :=
  let e := extract_text_from_pdf doc
  if strContains e.1 "Error" then ⟨none, 0, []⟩
  else
    let a := analyze_report e.2 oracle
    ⟨some a.1, a.2, [log_record now a.1]⟩

/-! ### Upload endpoint -/

/-- The JSON payload returned by the `/upload` route: either an
`{'error': msg}` object or a `{'response': r}` object. -/
inductive UploadPayload where
  | err (msg : String)
  | response (r : Option String)
deriving DecidableEq, Repr

/-- An incoming multipart request: whether a `'file'` part is present, the
submitted filename, and the document the saved file denotes. -/
structure UploadRequest where
  hasFilePart : Bool
  filename : String
  doc : PdfDoc

/-- Observable outcome of the `upload` route: the payload, whether the
pipeline (starting with extraction) was entered at all, and the number of
collaborator invocations. -/
structure UploadOutcome where
  payload : UploadPayload
  extractionAttempted : Bool
  genCalls : Nat
deriving DecidableEq, Repr

/-- Embedding of the `/upload` route handler. -/
def upload (req : UploadRequest) (oracle : Oracle) (now : String) : UploadOutcome :=
  if req.hasFilePart = false then ⟨UploadPayload.err "No file part", false, 0⟩
  else if req.filename = "" then ⟨UploadPayload.err "No selected file", false, 0⟩
  else
    let out := run_analysis req.doc oracle now
    ⟨UploadPayload.response out.result, true, out.genCalls⟩

/-! ### Helper lemmas -/

theorem pyLowerChar_idem (c : Char) : pyLowerChar (pyLowerChar c) = pyLowerChar c := by
  unfold pyLowerChar Char.toLower
  by_cases h : c.toNat ≥ 65 ∧ c.toNat ≤ 90
  · rw [if_pos h]
    have hv : Nat.isValidChar (c.toNat + 32) := Or.inl (by omega)
    have ht : (Char.ofNat (c.toNat + 32)).toNat = c.toNat + 32 := by
      rw [Char.ofNat, dif_pos hv]
      rfl
    rw [ht, if_neg (by omega)]
  · rw [if_neg h, if_neg h]

theorem map_pyLowerChar_idem (l : List Char) :
    (l.map pyLowerChar).map pyLowerChar = l.map pyLowerChar := by
  induction l with
  | nil => rfl
  | cons c cs ih => simp only [List.map_cons, pyLowerChar_idem, ih]

theorem pyLower_idem (s : String) : pyLower (pyLower s) = pyLower s :=
  congrArg String.mk (map_pyLowerChar_idem s.data)

theorem validSymptom_iff (s : String) :
    validSymptom s = true ↔ pyLower s ∈ VALID_MEDICAL_TERMS := by
  unfold validSymptom
  simp [List.contains]

theorem substr_extendR (pat head t : String) (h : SubStr pat head) :
    SubStr pat (head ++ t) := by
  obtain ⟨u, v, huv⟩ := h
  exact ⟨u, v ++ t, by rw [huv, String.append_assoc, String.append_assoc]⟩

/-- An oracle whose collaborator always answers with padded text. -/
def oracleOk : Oracle := fun _ => Except.ok " advice "

/-! ### Claim theorems -/

/-- C3 counterexample: the input "Parkinson’s disease" is itself a member
of the valid-term set (so it equals a term ignoring case), yet the stage-0
gate rejects it, because the gate lowercases the input and tests exact
membership while this term is stored with an uppercase letter. -/
theorem c3_counterexample :
    "Parkinson’s disease" ∈ VALID_MEDICAL_TERMS ∧
    start_consultation initSession oracle0 "Parkinson’s disease" =
      (initSession, some "AIMCA: Please enter a valid medical symptom or condition.") :=
  ⟨by decide, by decide⟩

/-- C3 (amended): the stage-0 gate accepts exactly the inputs whose
lowercasing is literally a member of the term set (accepted inputs are
stored and the session moves to stage 1, all others are rejected); that
membership holds exactly when the input equals, ignoring case, some term
stored entirely in lowercase; and a term stored with uppercase letters is
never the member matched by any input, so inputs whose only
case-insensitive matches are the capitalized terms are rejected. -/
theorem c3_lowercase_membership (st : Session) (o : Oracle) (hst : st.stage = 0) :
    (∀ u, pyLower u ∈ VALID_MEDICAL_TERMS →
      start_consultation st o u =
        ({ st with current_symptom := some u, stage := 1 },
          some "AIMCA: How long have you had this symptom?")) ∧
    (∀ u, pyLower u ∉ VALID_MEDICAL_TERMS →
      start_consultation st o u =
        (st, some "AIMCA: Please enter a valid medical symptom or condition.")) ∧
    (∀ u, pyLower u ∈ VALID_MEDICAL_TERMS ↔
      ∃ t, t ∈ VALID_MEDICAL_TERMS ∧ pyLower t = t ∧ pyLower u = pyLower t) ∧
    (∀ u t, t ∈ VALID_MEDICAL_TERMS → pyLower t ≠ t → pyLower u ≠ t) := by
  refine ⟨?_, ?_, ?_, ?_⟩
  · intro u hm
    have hv : validSymptom u = true := (validSymptom_iff u).mpr hm
    simp [start_consultation, hst, hv]
  · intro u hm
    have hv : validSymptom u = false := by
      cases hb : validSymptom u with
      | false => rfl
      | true => exact absurd ((validSymptom_iff u).mp hb) hm
    simp [start_consultation, hst, hv]
  · intro u
    constructor
    · intro hm
      exact ⟨pyLower u, hm, pyLower_idem u, (pyLower_idem u).symm⟩
    · rintro ⟨t, hm, hl, he⟩
      rw [he, hl]
      exact hm
  · intro u t _ hne heq
    apply hne
    rw [← heq]
    exact pyLower_idem u

/-- Witness for C3: the lowercase-stored term "fever" is matched
case-insensitively by "FEVER", while "PARKINSON’S DISEASE" — whose only
case-insensitive match is the capitalized entry — is rejected. -/
theorem c3_witness :
    initSession.stage = 0 ∧
    pyLower "FEVER" ∈ VALID_MEDICAL_TERMS ∧
    start_consultation initSession oracle0 "FEVER" =
      ({ initSession with current_symptom := some "FEVER", stage := 1 },
        some "AIMCA: How long have you had this symptom?") ∧
    pyLower "PARKINSON’S DISEASE" ∉ VALID_MEDICAL_TERMS ∧
    start_consultation initSession oracle0 "PARKINSON’S DISEASE" =
      (initSession, some "AIMCA: Please enter a valid medical symptom or condition.") :=
  ⟨rfl, by decide,
    (c3_lowercase_membership initSession oracle0 rfl).1 "FEVER" (by decide),
    by decide,
    (c3_lowercase_membership initSession oracle0 rfl).2.1 "PARKINSON’S DISEASE" (by decide)⟩

/-- C7: confirmed. An input whose lowercasing is outside the term set is
answered at stage 0 with the rejection prompt and the returned session is
the input session unchanged; iterating any number of such rejections
leaves the session fixed. -/
theorem c7_rejection_no_state_change (st : Session) (o : Oracle) (inp : String)
    (hst : st.stage = 0) (hv : validSymptom inp = false) :
    start_consultation st o inp =
      (st, some "AIMCA: Please enter a valid medical symptom or condition.") ∧
    (∀ n m0, (stepMany o (st, m0) (List.replicate n inp)).1 = st) := by
  have hstep : start_consultation st o inp =
      (st, some "AIMCA: Please enter a valid medical symptom or condition.") := by
    simp [start_consultation, hst, hv]
  refine ⟨hstep, ?_⟩
  intro n
  induction n with
  | zero => intro m0; rfl
  | succ k ih =>
    intro m0
    rw [List.replicate_succ]
    show (stepMany o (start_consultation st o inp) (List.replicate k inp)).1 = st
    rw [hstep]
    exact ih _

/-- Witness for C7 at the concrete invalid input "gibberish". -/
theorem c7_witness :
    initSession.stage = 0 ∧ validSymptom "gibberish" = false ∧
    start_consultation initSession oracle0 "gibberish" =
      (initSession, some "AIMCA: Please enter a valid medical symptom or condition.") :=
  ⟨rfl, by decide,
    (c7_rejection_no_state_change initSession oracle0 "gibberish" rfl (by decide)).1⟩

/-- C5 counterexample: when the collaborator raises on an uncached prompt,
nothing is cached, so two calls with the byte-identical prompt "q" invoke
the collaborator twice in total — refuting the claim's unconditional "at
most once in total". -/
theorem c5_counterexample :
    (generate_ai_response [] oracle0 "q").calls +
      (generate_ai_response (generate_ai_response [] oracle0 "q").cache oracle0 "q").calls = 2 ∧
    (generate_ai_response [] oracle0 "q").cache = [] :=
  ⟨by decide, by decide⟩

/-- C5 (amended): when the collaborator succeeds on the prompt, two calls
with the byte-identical prompt invoke the collaborator at most once in
total, the value is cached after the first call, and the second call
returns it with the cache unchanged; when the collaborator raises on an
uncached prompt, nothing is cached, so each of the two identical calls
invokes the collaborator once (twice in total). -/
theorem c5_cached_generation (cache : List (String × String)) (o : Oracle)
    (p : String) :
    (∀ v, o p = Except.ok v →
      (generate_ai_response cache o p).calls +
        (generate_ai_response (generate_ai_response cache o p).cache o p).calls ≤ 1 ∧
      cacheLookup (generate_ai_response cache o p).cache p =
        some (generate_ai_response cache o p).result ∧
      (generate_ai_response (generate_ai_response cache o p).cache o p).result =
        (generate_ai_response cache o p).result ∧
      (generate_ai_response (generate_ai_response cache o p).cache o p).cache =
        (generate_ai_response cache o p).cache) ∧
    (∀ e, o p = Except.error e → cacheLookup cache p = none →
      (generate_ai_response cache o p).calls = 1 ∧
      (generate_ai_response cache o p).cache = cache ∧
      (generate_ai_response (generate_ai_response cache o p).cache o p).calls = 1) := by
  constructor
  · intro v h
    cases hc : cacheLookup cache p with
    | some r => simp [generate_ai_response, hc]
    | none =>
      have hc2 : cacheLookup ((p, pyStrip v) :: cache) p = some (pyStrip v) := by
        simp [cacheLookup]
      simp [generate_ai_response, hc, h, hc2]
  · intro e he hmiss
    have hg : generate_ai_response cache o p = ⟨"Error: " ++ e, cache, 1⟩ := by
      unfold generate_ai_response
      rw [hmiss, he]
    refine ⟨by rw [hg], by rw [hg], ?_⟩
    rw [hg]
    show (generate_ai_response cache o p).calls = 1
    rw [hg]

/-- Witness for C5, exercising both regimes from the empty cache: a
succeeding collaborator gives at most one invocation across two identical
calls, an always-raising one gives one invocation per call. -/
theorem c5_witness :
    oracleOk "q" = Except.ok " advice " ∧
    oracle0 "q" = Except.error "service unavailable" ∧
    cacheLookup [] "q" = none ∧
    (generate_ai_response [] oracleOk "q").calls +
      (generate_ai_response (generate_ai_response [] oracleOk "q").cache oracleOk "q").calls ≤ 1 ∧
    (generate_ai_response [] oracle0 "q").calls = 1 ∧
    (generate_ai_response (generate_ai_response [] oracle0 "q").cache oracle0 "q").calls = 1 :=
  ⟨rfl, rfl, rfl,
    ((c5_cached_generation [] oracleOk "q").1 " advice " rfl).1,
    ((c5_cached_generation [] oracle0 "q").2 "service unavailable" rfl rfl).1,
    ((c5_cached_generation [] oracle0 "q").2 "service unavailable" rfl rfl).2.2⟩

/-- C6: confirmed. `generate_ai_response` is total in every branch (the
embedding of the catch-all `except`): on a cache miss, a collaborator
exception `e` yields the literal string `"Error: " ++ e` with the cache
unchanged, and a success yields the stripped text, which is also stored in
the cache under the prompt. -/
theorem c6_generation_error_string (cache : List (String × String)) (o : Oracle)
    (p : String) (hmiss : cacheLookup cache p = none) :
    (∀ e, o p = Except.error e →
      (generate_ai_response cache o p).result = "Error: " ++ e ∧
      (generate_ai_response cache o p).cache = cache ∧
      (generate_ai_response cache o p).calls = 1) ∧
    (∀ t, o p = Except.ok t →
      (generate_ai_response cache o p).result = pyStrip t ∧
      cacheLookup (generate_ai_response cache o p).cache p = some (pyStrip t)) := by
  constructor
  · intro e he
    simp [generate_ai_response, hmiss, he]
  · intro t ht
    have hg : generate_ai_response cache o p = ⟨pyStrip t, (p, pyStrip t) :: cache, 1⟩ := by
      unfold generate_ai_response
      rw [hmiss, ht]
    rw [hg]
    exact ⟨rfl, by simp [cacheLookup]⟩

/-- Witness for C6 at the empty cache and an always-raising collaborator. -/
theorem c6_witness :
    cacheLookup [] "q" = none ∧ oracle0 "q" = Except.error "service unavailable" ∧
    (generate_ai_response [] oracle0 "q").result = "Error: " ++ "service unavailable" ∧
    (generate_ai_response [] oracle0 "q").cache = [] ∧
    (generate_ai_response [] oracle0 "q").calls = 1 :=
  ⟨rfl, rfl,
    (c6_generation_error_string [] oracle0 "q" rfl).1 "service unavailable" rfl⟩

/-- Reachability is preserved by driving the dialog through any input list. -/
theorem reachable_stepMany (o : Oracle) (inputs : List String) :
    ∀ s : Session, ∀ m : Option String,
      Reachable s → Reachable (stepMany o (s, m) inputs).1 := by
  induction inputs with
  | nil => intro s m h; exact h
  | cons i rest ih =>
    intro s m h
    show Reachable (stepMany o (start_consultation s o i) rest).1
    have hstep := Reachable.step s o i h
    have := ih (start_consultation s o i).1 (start_consultation s o i).2 hstep
    exact this

/-- C1 counterexample: after the full nine-input cycle on "fever" the
closing message is returned and the stage is back at 0, but
`current_symptom` still holds "fever" — it is never cleared by the code,
contradicting the claim's "currentSymptom is cleared". -/
theorem c1_counterexample :
    (stepMany oracle0 (initSession, none)
      ["fever", "two days", "5", "a", "b", "c", "d", "e", "no"]).2 =
      some "AIMCA: Thank you for using AIMCA!" ∧
    (stepMany oracle0 (initSession, none)
      ["fever", "two days", "5", "a", "b", "c", "d", "e", "no"]).1.stage = 0 ∧
    (stepMany oracle0 (initSession, none)
      ["fever", "two days", "5", "a", "b", "c", "d", "e", "no"]).1.current_symptom
      = some "fever" :=
  ⟨by decide, by decide, by decide⟩

/-- C1 (amended): a full cycle — valid symptom, duration answer, severity
answer, 5 follow-up answers, then "no" — returns the closing message and
resets `stage` to 0 with `current_question_index` 0, but `current_symptom`
is not cleared: it still holds the accepted symptom. -/
theorem c1_full_cycle (st : Session) (o : Oracle)
    (sym d sev a1 a2 a3 a4 a5 : String)
    (hst : st.stage = 0) (hq : st.current_question_index = 0)
    (hv : validSymptom sym = true) :
    (stepMany o (st, none) [sym, d, sev, a1, a2, a3, a4, a5, "no"]).2 =
      some "AIMCA: Thank you for using AIMCA!" ∧
    (stepMany o (st, none) [sym, d, sev, a1, a2, a3, a4, a5, "no"]).1.stage = 0 ∧
    (stepMany o (st, none)
      [sym, d, sev, a1, a2, a3, a4, a5, "no"]).1.current_question_index = 0 ∧
    (stepMany o (st, none) [sym, d, sev, a1, a2, a3, a4, a5, "no"]).1.current_symptom
      = some sym := by
  obtain ⟨stg, cur, qi, cache⟩ := st
  simp only at hst hq
  subst hst
  subst hq
  have hno : (pyLower "no" = "yes") = False := eq_false (by decide)
  simp [stepMany, start_consultation, hv, additional_questions, hno]

/-- Witness for C1 at the concrete symptom "fever" and free-text answers. -/
theorem c1_witness :
    initSession.stage = 0 ∧ initSession.current_question_index = 0 ∧
    validSymptom "fever" = true ∧
    (stepMany oracle0 (initSession, none)
      ["fever", "x", "y", "p", "q", "r", "s", "t", "no"]).2 =
      some "AIMCA: Thank you for using AIMCA!" :=
  ⟨rfl, rfl, by decide,
    (c1_full_cycle initSession oracle0 "fever" "x" "y" "p" "q" "r" "s" "t"
      rfl rfl (by decide)).1⟩

/-- C4 counterexample: the state reached by the full nine-input cycle is
reachable, has `stage = 0` (AwaitingSymptom), and still carries a
non-empty `current_symptom` — contradicting the claim that
`currentSymptom` is non-empty only outside AwaitingSymptom. -/
theorem c4_counterexample :
    Reachable (stepMany oracle0 (initSession, none)
      ["fever", "two days", "5", "a", "b", "c", "d", "e", "no"]).1 ∧
    (stepMany oracle0 (initSession, none)
      ["fever", "two days", "5", "a", "b", "c", "d", "e", "no"]).1.stage = 0 ∧
    (stepMany oracle0 (initSession, none)
      ["fever", "two days", "5", "a", "b", "c", "d", "e", "no"]).1.current_symptom
      ≠ none :=
  ⟨reachable_stepMany oracle0 ["fever", "two days", "5", "a", "b", "c", "d", "e", "no"]
      initSession none Reachable.init,
    by decide, by decide⟩

/-- C4 (amended): every reachable session satisfies `stage ∈ [0,3]` (the
four stage values the code uses, a subset of the five spec states),
`current_question_index ∈ [0,5]`, `current_symptom` is non-empty whenever
`stage ≠ 0`, and any stored symptom passed the validator; but
`current_symptom` may also be non-empty at stage 0, since a completed
cycle never clears it. -/
theorem c4_reachable_invariant (s : Session) (h : Reachable s) :
    s.stage ≤ 3 ∧ s.current_question_index ≤ 5 ∧
    (s.stage ≠ 0 → s.current_symptom ≠ none) ∧
    (∀ t, s.current_symptom = some t → validSymptom t = true) := by
  induction h with
  | init =>
    refine ⟨by decide, by decide, ?_, ?_⟩
    · intro hne
      exact absurd rfl hne
    · intro t ht
      cases ht
  | step s o inp hr ih =>
    obtain ⟨h3, h5, hsym, hterm⟩ := ih
    unfold start_consultation
    split
    next h0 =>
      split
      next hv => exact ⟨h3, h5, hsym, hterm⟩
      next hv =>
        have hvt : validSymptom inp = true := by
          revert hv
          cases validSymptom inp <;> simp
        dsimp only
        refine ⟨by omega, h5, fun _ => by simp, ?_⟩
        intro t ht
        simp only [Option.some.injEq] at ht
        subst ht
        exact hvt
    next h0 =>
      split
      next h1 =>
        dsimp only
        exact ⟨by omega, h5, fun _ => hsym (by omega), hterm⟩
      next h1 =>
        split
        next h2 =>
          split
          next hqlt =>
            dsimp only
            have hq5 : s.current_question_index < 5 := by
              simpa [additional_questions] using hqlt
            exact ⟨by omega, by omega, fun _ => hsym (by omega), hterm⟩
          next hqge =>
            dsimp only
            exact ⟨by omega, by omega, fun _ => hsym (by omega), hterm⟩
        next h2 =>
          split
          next hs3 =>
            split
            next hyes =>
              dsimp only
              exact ⟨by omega, h5, fun hc => absurd rfl hc, hterm⟩
            next hno =>
              dsimp only
              exact ⟨by omega, h5, fun hc => absurd rfl hc, hterm⟩
          next hs3 => exact ⟨h3, h5, hsym, hterm⟩

/-- Witness for C4 at the initial session. -/
theorem c4_witness :
    initSession.stage ≤ 3 ∧ initSession.current_question_index ≤ 5 ∧
    (initSession.stage ≠ 0 → initSession.current_symptom ≠ none) ∧
    (∀ t, initSession.current_symptom = some t → validSymptom t = true) :=
  c4_reachable_invariant initSession Reachable.init

/-- C2 counterexample: on a document with zero extractable text,
`run_analysis` returns Python's `None` (the bare `return` after printing),
not an error-signaling string as the claim states. -/
theorem c2_counterexample :
    (run_analysis (Except.ok ([] : List String)) oracle0 "ts").result = none :=
  by decide

/-- C2 (amended): on a document with zero extractable text, `run_analysis`
halts before analysis and returns `None` (not an error string): the
collaborator is never invoked and the analysis log is not written; the
extraction error string is only printed. -/
theorem c2_zero_text_returns_none (pages : List String) (o : Oracle) (now : String)
    (h : joinPages pages = "") :
    run_analysis (Except.ok pages) o now = ⟨none, 0, []⟩ := by
  have hext : extract_text_from_pdf (Except.ok pages) =
      ("Error: No readable text found.", "") := by
    unfold extract_text_from_pdf
    simp [h]
  unfold run_analysis
  rw [hext]
  simp [strContains, containsAt, leadsWith]

/-- Witness for C2 at a document whose single page has no extractable text. -/
theorem c2_witness :
    joinPages [""] = "" ∧
    run_analysis (Except.ok [""]) oracle0 "ts" = ⟨none, 0, []⟩ :=
  ⟨by decide, c2_zero_text_returns_none [""] oracle0 "ts" (by decide)⟩

/-- C10: confirmed. Whenever the successfully extracted text itself
contains the substring "Error" anywhere, the `"Error" in text` guard of
`run_analysis` fires: the pipeline halts before the generation call,
nothing is logged, and the function returns `None`, exactly as on a
genuine extraction failure. -/
theorem c10_error_substring_halts (pages : List String) (o : Oracle) (now : String)
    (hne : joinPages pages ≠ "")
    (herr : strContains (joinPages pages) "Error" = true) :
    run_analysis (Except.ok pages) o now = ⟨none, 0, []⟩ := by
  have hext : extract_text_from_pdf (Except.ok pages) =
      (joinPages pages, joinPages pages) := by
    unfold extract_text_from_pdf
    simp [hne]
  unfold run_analysis
  rw [hext]
  simp [herr]

/-- Witness for C10 at a report whose extracted text contains "Error". -/
theorem c10_witness :
    joinPages ["Lab Error in assay"] ≠ "" ∧
    strContains (joinPages ["Lab Error in assay"]) "Error" = true ∧
    run_analysis (Except.ok ["Lab Error in assay"]) oracleOk "ts" = ⟨none, 0, []⟩ :=
  ⟨by decide, by decide,
    c10_error_substring_halts ["Lab Error in assay"] oracleOk "ts" (by decide) (by decide)⟩

/-- C9: confirmed. A request with no file part returns the error payload
"No file part"; a request with a file part but empty filename returns the
distinct error payload "No selected file"; in both cases the pipeline is
never entered (no extraction, no generation call). -/
theorem c9_upload_errors (req1 req2 : UploadRequest) (o : Oracle) (now : String)
    (h1 : req1.hasFilePart = false)
    (h2 : req2.hasFilePart = true) (h2f : req2.filename = "") :
    upload req1 o now = ⟨UploadPayload.err "No file part", false, 0⟩ ∧
    upload req2 o now = ⟨UploadPayload.err "No selected file", false, 0⟩ ∧
    UploadPayload.err "No file part" ≠ UploadPayload.err "No selected file" := by
  refine ⟨?_, ?_, by decide⟩
  · unfold upload
    rw [h1]
    simp
  · unfold upload
    rw [h2, h2f]
    simp

/-- C8 counterexample: (a) a document whose extraction yields the
non-empty text "Error\n" makes `run_analysis` halt — no prompt is passed
to the collaborator, nothing is returned, nothing is logged; (b) when the
collaborator answers " y ", `run_analysis` returns "y", the trimmed text,
not the collaborator's result verbatim. -/
theorem c8_counterexample :
    joinPages ["Error"] ≠ "" ∧
    run_analysis (Except.ok ["Error"]) oracleOk "ts" = ⟨none, 0, []⟩ ∧
    run_analysis (Except.ok ["x"]) (fun _ => Except.ok " y ") "ts" =
      ⟨some "y", 1, [log_record "ts" "y"]⟩ :=
  ⟨by decide, by decide, by decide⟩

/-- C8 (amended): for every document whose extraction yields non-empty
text that does not contain the substring "Error", `run_analysis` builds a
prompt containing the extracted text as a literal substring together with
the five required section headers, passes it to the generation
collaborator exactly once (the analyzer consults no cache by
construction: `analyze_report` takes none), returns the collaborator's
result trimmed of surrounding whitespace, and appends to the analysis log
one record consisting of the timestamp line, the result body, and a
separator line of 80 '=' characters. -/
theorem c8_analysis_pipeline (pages : List String) (o : Oracle) (now r : String)
    (hne : joinPages pages ≠ "")
    (herr : strContains (joinPages pages) "Error" = false)
    (hok : o (analysisPrompt (joinPages pages)) = Except.ok r) :
    run_analysis (Except.ok pages) o now =
      ⟨some (pyStrip r), 1, [log_record now (pyStrip r)]⟩ ∧
    SubStr (joinPages pages) (analysisPrompt (joinPages pages)) ∧
    SubStr "1. Identified abnormalities" (analysisPrompt (joinPages pages)) ∧
    SubStr "2. Possible risk factors" (analysisPrompt (joinPages pages)) ∧
    SubStr "3. Recommended next steps" (analysisPrompt (joinPages pages)) ∧
    SubStr "4. Suggested specialist doctor to consult" (analysisPrompt (joinPages pages)) ∧
    SubStr "5. At-home remedies or lifestyle changes (if applicable)"
      (analysisPrompt (joinPages pages)) ∧
    separatorLine.length = 80 ∧
    separatorLine.data.all (fun c => c == '=') = true := by
  have hsub : ∀ pat : String, SubStr pat analysisPromptHead →
      SubStr pat (analysisPrompt (joinPages pages)) := by
    intro pat hp
    exact substr_extendR pat analysisPromptHead (joinPages pages) hp
  refine ⟨?_, ⟨analysisPromptHead, "", by rw [String.append_empty]; rfl⟩,
    hsub _ ⟨"Analyze the following pathology report and provide a structured response including:\n",
      "\n2. Possible risk factors\n3. Recommended next steps\n4. Suggested specialist doctor to consult\n5. At-home remedies or lifestyle changes (if applicable)\n\nReport:\n",
      by decide⟩,
    hsub _ ⟨"Analyze the following pathology report and provide a structured response including:\n1. Identified abnormalities\n",
      "\n3. Recommended next steps\n4. Suggested specialist doctor to consult\n5. At-home remedies or lifestyle changes (if applicable)\n\nReport:\n",
      by decide⟩,
    hsub _ ⟨"Analyze the following pathology report and provide a structured response including:\n1. Identified abnormalities\n2. Possible risk factors\n",
      "\n4. Suggested specialist doctor to consult\n5. At-home remedies or lifestyle changes (if applicable)\n\nReport:\n",
      by decide⟩,
    hsub _ ⟨"Analyze the following pathology report and provide a structured response including:\n1. Identified abnormalities\n2. Possible risk factors\n3. Recommended next steps\n",
      "\n5. At-home remedies or lifestyle changes (if applicable)\n\nReport:\n",
      by decide⟩,
    hsub _ ⟨"Analyze the following pathology report and provide a structured response including:\n1. Identified abnormalities\n2. Possible risk factors\n3. Recommended next steps\n4. Suggested specialist doctor to consult\n",
      "\n\nReport:\n",
      by decide⟩,
    by decide, by decide⟩
  have hext : extract_text_from_pdf (Except.ok pages) =
      (joinPages pages, joinPages pages) := by
    unfold extract_text_from_pdf
    simp [hne]
  have hana : analyze_report (joinPages pages) o = (pyStrip r, 1) := by
    unfold analyze_report
    rw [if_neg hne, hok]
  unfold run_analysis
  rw [hext]
  simp only [herr, Bool.false_eq_true, if_false]
  rw [hana]

/-- Witness for C8 at the report text from the spec's example and a
collaborator answering padded text. -/
theorem c8_witness :
    joinPages ["Hemoglobin: 9.2 g/dL"] ≠ "" ∧
    strContains (joinPages ["Hemoglobin: 9.2 g/dL"]) "Error" = false ∧
    oracleOk (analysisPrompt (joinPages ["Hemoglobin: 9.2 g/dL"])) =
      Except.ok " advice " ∧
    run_analysis (Except.ok ["Hemoglobin: 9.2 g/dL"]) oracleOk "2026-10-12" =
      ⟨some (pyStrip " advice "), 1, [log_record "2026-10-12" (pyStrip " advice ")]⟩ :=
  ⟨by decide, by decide, rfl,
    (c8_analysis_pipeline ["Hemoglobin: 9.2 g/dL"] oracleOk "2026-10-12" " advice "
      (by decide) (by decide) rfl).1⟩

/-- Witness for C9 at two concrete requests. -/
theorem c9_witness :
    (⟨false, "a.pdf", Except.ok []⟩ : UploadRequest).hasFilePart = false ∧
    (⟨true, "", Except.ok []⟩ : UploadRequest).hasFilePart = true ∧
    (⟨true, "", Except.ok []⟩ : UploadRequest).filename = "" ∧
    upload ⟨false, "a.pdf", Except.ok []⟩ oracle0 "ts" =
      ⟨UploadPayload.err "No file part", false, 0⟩ ∧
    upload ⟨true, "", Except.ok []⟩ oracle0 "ts" =
      ⟨UploadPayload.err "No selected file", false, 0⟩ :=
  ⟨rfl, rfl, rfl,
    (c9_upload_errors ⟨false, "a.pdf", Except.ok []⟩ ⟨true, "", Except.ok []⟩
      oracle0 "ts" rfl rfl rfl).1,
    (c9_upload_errors ⟨false, "a.pdf", Except.ok []⟩ ⟨true, "", Except.ok []⟩
      oracle0 "ts" rfl rfl rfl).2.1⟩

end MedAI

